import Mathlib

/-!
Shallow embedding of the matching logic of `check_annotation.py`
(Face Attribute Viewer): case-insensitive person-name indexing,
person-directory resolution, and record-to-file matching.

Python dictionaries are modelled as association lists built with
Python's assignment semantics (`dictInsert`): assigning an existing
key replaces its value in place, a new key is appended at the end.
`str.lower()` is modelled by `pyLower`, pandas `NaN` cells by
`Option.none`, and a raised exception by `Except.error`.
-/

/-- Python `str.lower()` (ASCII range, which covers every name and
filename in the claims): lowercase each character.  Defined over the
character list so that the kernel can evaluate it. -/
def pyLower (s : String) : String :=
  String.mk (s.data.map Char.toLower)

/-- Character comparison by code point, as Python compares characters. -/
def charLt (a b : Char) : Bool :=
  Nat.blt a.val.toNat b.val.toNat

/-- Lexicographic comparison of character lists by code point. -/
def charListLt : List Char → List Char → Bool
  | _, [] => false
  | [], _ :: _ => true
  | a :: as, b :: bs => charLt a b || (a == b && charListLt as bs)

/-- Python string comparison `a < b`: lexicographic by code point. -/
def strLt (a b : String) : Bool :=
  charListLt a.data b.data

/-- Python dict assignment `m[k] = v`: if the key exists its value is
replaced in place (insertion position kept), otherwise the pair is
appended at the end. -/
def dictInsert (m : List (String × String)) (k v : String) : List (String × String) :=
  if m.any (fun p => p.1 == k) then
    m.map (fun p => if p.1 == k then (k, v) else p)
  else
    m ++ [(k, v)]

/-- Python dict lookup `m.get(k)`: value of the first (and, for dicts
built with `dictInsert`, only) entry whose key equals `k`. -/
def dictLookup (m : List (String × String)) (k : String) : Option String :=
  (m.find? (fun p => p.1 == k)).map (fun p => p.2)

/-- Python dict comprehension over an iterable: repeated assignment in
iteration order, starting from the empty dict; later items with the same
key overwrite earlier ones. -/
def pyDict (l : List α) (key : α → String) (val : α → String) : List (String × String) :=
  l.foldl (fun m x => dictInsert m (key x) (val x)) []

/-- Helper for `unique`: keep each value's first appearance, tracking
the values already seen. -/
def uniqueAux (seen : List String) : List String → List String
  | [] => []
  | x :: xs => if seen.contains x then uniqueAux seen xs else x :: uniqueAux (x :: seen) xs

/-- pandas `Series.unique()`: the distinct values in order of first
appearance. -/
def unique (l : List String) : List String :=
  uniqueAux [] l

/-- Insert into a `<`-sorted list of strings, keeping it sorted. -/
def insertSorted (x : String) : List String → List String
  | [] => [x]
  | y :: ys => if strLt y x then y :: insertSorted x ys else x :: y :: ys

/-- Python `sorted` on strings (standard lexicographic ordering). -/
def pySorted (l : List String) : List String :=
  l.foldr insertSorted []

/-- Line 92: `unique_names_map = {name.lower(): name for name in
df['name'].dropna().unique()[::-1]}`.  The `name` column is a list of
optional strings (`none` = pandas `NaN`); `dropna` is `List.filterMap id`,
`.unique()` is `unique`, `[::-1]` is `List.reverse`, and the dict
comprehension is `pyDict`. -/
def unique_names_map (names : List (Option String)) : List (String × String) :=
  pyDict ((unique (names.filterMap id)).reverse) (fun name => pyLower name) (fun name => name)

/-- Line 93: `person_list = sorted(unique_names_map.values())`. -/
def person_list (names : List (Option String)) : List String :=
  pySorted ((unique_names_map names).map (fun p => p.2))

/-- An immediate child of a person folder, as seen by `Path.iterdir()`:
its name plus the `is_dir()` / `is_file()` flags. -/
structure FileEntry where
  name : String
  isDir : Bool
  isFile : Bool
deriving DecidableEq

/-- An immediate child of a base directory: its name, its `is_dir()`
flag, and (when it is a directory) its own immediate children. -/
structure SubEntry where
  name : String
  isDir : Bool
  files : List FileEntry
deriving DecidableEq

/-- Line 109/118: `all_subdirs = [p for p in base_dir.iterdir() if p.is_dir()]`. -/
def all_subdirs (entries : List SubEntry) : List SubEntry :=
  entries.filter (fun p => p.isDir)

/-- Lines 110-111/119-120: `next((path for path in all_subdirs if
path.name.lower() == selected_person.lower()), None)`. -/
def person_folder_path (entries : List SubEntry) (selected_person : String) : Option SubEntry :=
  (all_subdirs entries).find? (fun path => pyLower path.name == pyLower selected_person)

/-- Lines 114-120: the face person folder is `None` unless a face base
path was given and that path `is_dir()`, in which case it is resolved
like the original one. -/
def face_person_folder_path (face_image_base_dir_path : String) (face_is_dir : Bool)
    (face_entries : List SubEntry) (selected_person : String) : Option SubEntry :=
  if face_image_base_dir_path != "" && face_is_dir then
    person_folder_path face_entries selected_person
  else
    none

/-- Lines 131-136: `{f.name.lower(): f.name for f in folder.iterdir() if
f.is_file()}` — built once per resolved directory over its immediate
files only. -/
def filename_map (folder : SubEntry) : List (String × String) :=
  pyDict (folder.files.filter (fun f => f.isFile)) (fun f => pyLower f.name) (fun f => f.name)

/-- Full path of a resolved person folder (`base / name`). -/
def folder_full_path (base : String) (folder : SubEntry) : String :=
  base ++ "/" ++ folder.name

/-- Outcome of the original-image column (lines 147-154): either the
image at the joined path with its on-disk name as caption, or the
"File not found in original folder." warning. -/
inductive OrigOutcome where
  | shown (path : String) (caption : String)
  | fileNotFound
deriving DecidableEq

/-- Outcome of the face-image column (lines 157-171): the image, the
"File not found in face folder." warning, the "Folder ... not found in
face directory." warning, or the "No face image directory provided."
info message. -/
inductive FaceOutcome where
  | shown (path : String) (caption : String)
  | fileNotFound
  | folderNotFound
  | noDirProvided
deriving DecidableEq

/-- Lines 147-154: look up `csv_filename.lower()` in the original
filename map; on success render `orig_person_folder_path /
correct_orig_filename`, otherwise warn. -/
def col1 (orig_base : String) (orig_folder : SubEntry) (csv_filename : String) : OrigOutcome :=
  match dictLookup (filename_map orig_folder) (pyLower csv_filename) with
  | some correct_orig_filename =>
      OrigOutcome.shown (folder_full_path orig_base orig_folder ++ "/" ++ correct_orig_filename)
        correct_orig_filename
  | none => OrigOutcome.fileNotFound

/-- Lines 157-171: if the face person folder resolved, look up the
filename in the face map; otherwise warn "folder not found" when a face
base path was provided, else show the info message. -/
def col2 (face_base : String) (face_dir_provided : Bool) (face_folder : Option SubEntry)
    (csv_filename : String) : FaceOutcome :=
  match face_folder with
  | some fol =>
      match dictLookup (filename_map fol) (pyLower csv_filename) with
      | some correct_face_filename =>
          FaceOutcome.shown (folder_full_path face_base fol ++ "/" ++ correct_face_filename)
            correct_face_filename
      | none => FaceOutcome.fileNotFound
  | none =>
      if face_dir_provided then FaceOutcome.folderNotFound else FaceOutcome.noDirProvided

/-- One iteration of the loop of lines 139-171 for a usable filename:
the two image columns, each computed from its own root only. -/
def render_row (orig_base : String) (orig_folder : SubEntry) (face_base : String)
    (face_dir_provided : Bool) (face_folder : Option SubEntry) (csv_filename : String) :
    OrigOutcome × FaceOutcome :=
  (col1 orig_base orig_folder csv_filename,
   col2 face_base face_dir_provided face_folder csv_filename)

/-- The loop of lines 139-171 over a list of usable csv filenames. -/
def render_rows (orig_base : String) (orig_folder : SubEntry) (face_base : String)
    (face_dir_provided : Bool) (face_folder : Option SubEntry) (csv_filenames : List String) :
    List (OrigOutcome × FaceOutcome) :=
  csv_filenames.map (render_row orig_base orig_folder face_base face_dir_provided face_folder)

/-- Status of one record against one image root: the resolved path, a
missing file inside a resolved folder, or a missing person folder. -/
inductive MatchResult where
  | found (path : String)
  | fileMissing
  | dirMissing
deriving DecidableEq

/-- Per-record, per-root match status: `dirMissing` when the person
folder did not resolve; otherwise the lookup of lines 149/160 decides
between `found` (with the joined path) and `fileMissing`. -/
def record_status (base : String) (folder : Option SubEntry) (csv_filename : String) :
    MatchResult :=
  match folder with
  | none => MatchResult.dirMissing
  | some fol =>
      match dictLookup (filename_map fol) (pyLower csv_filename) with
      | some correct => MatchResult.found (folder_full_path base fol ++ "/" ++ correct)
      | none => MatchResult.fileMissing

/-- One CSV row restricted to its two required fields; `none` models a
pandas `NaN` cell. -/
structure CsvRow where
  name : Option String
  image_filename : Option String
deriving DecidableEq

/-- Line 105: `person_df = df[df['name'].str.lower() ==
selected_person.lower()]`.  A `NaN` name gives `NaN` under `.str.lower()`
and `NaN == x` is `False`, so such rows are excluded; the
`image_filename` field is not consulted. -/
def person_df (df : List CsvRow) (selected_person : String) : List CsvRow :=
  df.filter (fun row =>
    match row.name with
    | some n => pyLower n == pyLower selected_person
    | none => false)

/-- Lines 141-171 for one row: `csv_filename = row["image_filename"]`
followed by `csv_filename.lower()`.  When the cell is `NaN` the value is
a float and `.lower()` raises `AttributeError`, modelled as
`Except.error`. -/
def render_row_df (orig_base : String) (orig_folder : SubEntry) (face_base : String)
    (face_dir_provided : Bool) (face_folder : Option SubEntry) (row : CsvRow) :
    Except String (OrigOutcome × FaceOutcome) :=
  match row.image_filename with
  | none => Except.error "AttributeError"
  | some csv_filename =>
      Except.ok (render_row orig_base orig_folder face_base face_dir_provided face_folder
        csv_filename)

/-- The loop of lines 139-178 over the selected person's rows; a raised
exception aborts the loop. -/
def render_df (orig_base : String) (orig_folder : SubEntry) (face_base : String)
    (face_dir_provided : Bool) (face_folder : Option SubEntry) (rows : List CsvRow) :
    Except String (List (OrigOutcome × FaceOutcome)) :=
  rows.mapM (render_row_df orig_base orig_folder face_base face_dir_provided face_folder)

/-- The distinct top-level states of the main content area
(lines 56-178). -/
inductive View where
  | welcome
  | origDirConfigError (path : String)
  | csvLoadError
  | missingColumns
  | noData
  | origFolderNotFound
  | exceptionPage (e : String)
  | page (results : List (OrigOutcome × FaceOutcome))
deriving DecidableEq

/-- One render pass's inputs: the widget values and a snapshot of the
filesystem (whether each base path `is_dir()` and its listing) and of
the parsed CSV. -/
structure AppInput where
  csv_uploaded : Bool
  image_base_dir_path : String
  face_image_base_dir_path : String
  orig_is_dir : Bool
  orig_entries : List SubEntry
  face_is_dir : Bool
  face_entries : List SubEntry
  csv_load_ok : Bool
  has_required_columns : Bool
  df : List CsvRow
  selected_person : String
deriving DecidableEq

/-- Lines 56-178: the branch structure of one render pass.  Missing
inputs show the welcome text; an original base path that is not a
directory is the configuration error of line 80; then CSV load and
column checks; then, for the selected person, the empty-rows warning
(line 123), the originals-folder-not-found error (line 125), or the
per-row rendering loop. -/
def app (i : AppInput) : View :=
  if !i.csv_uploaded || i.image_base_dir_path == "" then View.welcome
  else if !i.orig_is_dir then View.origDirConfigError i.image_base_dir_path
  else if !i.csv_load_ok then View.csvLoadError
  else if !i.has_required_columns then View.missingColumns
  else
    let pdf := person_df i.df i.selected_person
    let orig_folder := person_folder_path i.orig_entries i.selected_person
    let face_provided := i.face_image_base_dir_path != ""
    let face_folder := face_person_folder_path i.face_image_base_dir_path i.face_is_dir
      i.face_entries i.selected_person
    if pdf.isEmpty then View.noData
    else
      match orig_folder with
      | none => View.origFolderNotFound
      | some fol =>
          match render_df i.image_base_dir_path fol i.face_image_base_dir_path face_provided
            face_folder pdf with
          | Except.ok results => View.page results
          | Except.error e => View.exceptionPage e

/-- The full matching pipeline of one render pass: the name index
(line 92), the two resolved person folders (lines 109-120), and the
resulting view. -/
def match_pipeline (i : AppInput) :
    List (String × String) × Option SubEntry × Option SubEntry × View :=
  (unique_names_map (i.df.map (fun r => r.name)),
   person_folder_path i.orig_entries i.selected_person,
   face_person_folder_path i.face_image_base_dir_path i.face_is_dir i.face_entries
     i.selected_person,
   app i)

/-- Two runs of the pipeline on the same inputs. -/
def match_pipeline_twice (i : AppInput) :
    (List (String × String) × Option SubEntry × Option SubEntry × View) ×
    (List (String × String) × Option SubEntry × Option SubEntry × View) :=
  (match_pipeline i, match_pipeline i)

/-- A pandas Series as it reaches line 176: the row's index labels (the
CSV column names) and the corresponding values, in column order. -/
structure PdSeries where
  idx : List String
  vals : List String
deriving DecidableEq

/-- Lines 176-177: `row.to_frame().reset_index()` with columns renamed
to `Attribute` / `Value` lists every (index label, value) item of the
series, in order. -/
def attributes_table (row : PdSeries) : List (String × String) :=
  row.idx.zip row.vals

/-- Modelled from the spec: the attribute table that §6 of the spec
describes, "derived from the record's non-identifying fields", i.e. the
row's items with the identity columns `image_filename` and `name`
removed.  Used only to compare the spec's words with
`attributes_table`. -/
def attributes_table_spec (row : PdSeries) : List (String × String) :=
  (row.idx.zip row.vals).filter (fun p => !(p.1 == "image_filename") && !(p.1 == "name"))

/-! Helper lemmas about the dictionary model. -/

theorem dictLookup_nil (k : String) : dictLookup [] k = none := rfl

theorem dictLookup_cons (q : String × String) (m : List (String × String)) (k : String) :
    dictLookup (q :: m) k = if q.1 == k then some q.2 else dictLookup m k := by
  simp only [dictLookup, List.find?_cons]
  cases h : (q.1 == k) <;> simp [h]

theorem dictInsert_cons (q : String × String) (m : List (String × String)) (k v : String) :
    dictInsert (q :: m) k v =
      if q.1 == k then (k, v) :: m.map (fun p => if p.1 == k then (k, v) else p)
      else q :: dictInsert m k v := by
  unfold dictInsert
  simp only [List.any_cons]
  by_cases hq : q.1 = k
  · have hbeq : (q.1 == k) = true := beq_iff_eq.mpr hq
    simp [hbeq, hq]
  · have hbeq : (q.1 == k) = false := beq_eq_false_iff_ne.mpr hq
    by_cases hm : (m.any fun p => p.1 == k) = true
    · simp [hbeq, hm, hq]
    · simp only [Bool.not_eq_true] at hm
      simp [hbeq, hm, hq]

theorem dictLookup_map_replace (m : List (String × String)) (k v k2 : String) (hne : k2 ≠ k) :
    dictLookup (m.map (fun p => if p.1 == k then (k, v) else p)) k2 = dictLookup m k2 := by
  induction m with
  | nil => rfl
  | cons q m ih =>
      simp only [List.map_cons]
      rw [dictLookup_cons, dictLookup_cons]
      by_cases hq : q.1 = k
      · have hbeq : (q.1 == k) = true := beq_iff_eq.mpr hq
        simp only [hbeq, if_true]
        have h1 : ((k, v).1 == k2) = false := beq_eq_false_iff_ne.mpr (Ne.symm hne)
        have h2 : (q.1 == k2) = false := by
          rw [beq_eq_false_iff_ne, hq]
          exact Ne.symm hne
        simp only [h1, h2, if_false]
        exact ih
      · have hbeq : (q.1 == k) = false := beq_eq_false_iff_ne.mpr hq
        simp only [hbeq, if_false, Bool.false_eq_true]
        by_cases h2 : (q.1 == k2) = true
        · simp only [h2, if_true]
        · simp only [h2, if_false, Bool.false_eq_true]
          exact ih

theorem dictLookup_dictInsert (m : List (String × String)) (k v k2 : String) :
    dictLookup (dictInsert m k v) k2 = if k2 = k then some v else dictLookup m k2 := by
  induction m with
  | nil =>
      show dictLookup [(k, v)] k2 = _
      rw [dictLookup_cons]
      by_cases hk : k2 = k
      · simp [hk]
      · have : (k == k2) = false := beq_eq_false_iff_ne.mpr (Ne.symm hk)
        simp [this, hk, dictLookup_nil]
  | cons q m ih =>
      rw [dictInsert_cons]
      by_cases hq : q.1 = k
      · have hbeq : (q.1 == k) = true := beq_iff_eq.mpr hq
        simp only [hbeq, if_true]
        rw [dictLookup_cons]
        by_cases hk : k2 = k
        · subst hk
          simp
        · have h1 : ((k, v).1 == k2) = false := beq_eq_false_iff_ne.mpr (Ne.symm hk)
          simp only [h1, if_false, Bool.false_eq_true]
          rw [dictLookup_map_replace m k v k2 hk, if_neg hk, dictLookup_cons]
          have h2 : (q.1 == k2) = false := by
            rw [beq_eq_false_iff_ne, hq]
            exact Ne.symm hk
          simp [h2]
      · have hbeq : (q.1 == k) = false := beq_eq_false_iff_ne.mpr hq
        simp only [hbeq, if_false, Bool.false_eq_true]
        rw [dictLookup_cons, dictLookup_cons, ih]
        by_cases hq2 : q.1 = k2
        · have h2 : (q.1 == k2) = true := beq_iff_eq.mpr hq2
          have hk : ¬ k2 = k := fun h => hq (hq2.trans h)
          simp [h2, hk]
        · have h2 : (q.1 == k2) = false := beq_eq_false_iff_ne.mpr hq2
          simp [h2]

theorem mem_dictInsert (m : List (String × String)) (k v : String) (p : String × String)
    (hp : p ∈ dictInsert m k v) : p ∈ m ∨ p = (k, v) := by
  unfold dictInsert at hp
  by_cases hany : (m.any fun q => q.1 == k) = true
  · simp only [hany, if_true] at hp
    rcases List.mem_map.mp hp with ⟨q, hq, hqe⟩
    by_cases hqk : q.1 = k
    · right
      rw [← hqe]
      simp [beq_iff_eq.mpr hqk]
    · left
      rw [← hqe]
      simp only [beq_eq_false_iff_ne.mpr hqk, if_false, Bool.false_eq_true]
      exact hq
  · simp only [hany, if_false, Bool.false_eq_true, List.mem_append, List.mem_singleton] at hp
    exact hp

theorem length_dictInsert (m : List (String × String)) (k v : String) :
    (dictInsert m k v).length ≤ m.length + 1 := by
  unfold dictInsert
  by_cases hany : (m.any fun q => q.1 == k) = true
  · simp only [hany, if_true, List.length_map]
    exact Nat.le_succ _
  · simp [hany]

theorem pyDict_append (l : List α) (a : α) (key val : α → String) :
    pyDict (l ++ [a]) key val = dictInsert (pyDict l key val) (key a) (val a) := by
  simp [pyDict, List.foldl_append]

theorem dictLookup_pyDict (l : List α) (key val : α → String) (k : String) :
    dictLookup (pyDict l key val) k = (l.reverse.find? (fun x => key x == k)).map val := by
  induction l using List.reverseRecOn with
  | nil => rfl
  | append_singleton l a ih =>
      rw [pyDict_append, dictLookup_dictInsert, List.reverse_append]
      simp only [List.reverse_singleton, List.singleton_append, List.find?_cons]
      by_cases hk : k = key a
      · simp [beq_iff_eq.mpr hk.symm, hk]
      · have : (key a == k) = false := beq_eq_false_iff_ne.mpr (Ne.symm hk)
        simp [this, hk, ih]

theorem mem_pyDict (l : List α) (key val : α → String) (p : String × String)
    (hp : p ∈ pyDict l key val) : ∃ x, x ∈ l ∧ p = (key x, val x) := by
  induction l using List.reverseRecOn with
  | nil => simp [pyDict] at hp
  | append_singleton l a ih =>
      rw [pyDict_append] at hp
      rcases mem_dictInsert _ _ _ _ hp with h | h
      · rcases ih h with ⟨x, hx, hxe⟩
        exact ⟨x, List.mem_append_left _ hx, hxe⟩
      · exact ⟨a, List.mem_append_right _ (List.mem_singleton.mpr rfl), h⟩

theorem length_pyDict (l : List α) (key val : α → String) :
    (pyDict l key val).length ≤ l.length := by
  induction l using List.reverseRecOn with
  | nil => simp [pyDict]
  | append_singleton l a ih =>
      rw [pyDict_append]
      calc (dictInsert (pyDict l key val) (key a) (val a)).length
          ≤ (pyDict l key val).length + 1 := length_dictInsert _ _ _
        _ ≤ l.length + 1 := Nat.succ_le_succ ih
        _ = (l ++ [a]).length := by simp

/-! Helper lemmas about `unique` (pandas first-appearance dedup). -/

theorem contains_iff_mem (seen : List String) (x : String) :
    seen.contains x = true ↔ x ∈ seen := by
  rw [List.contains_iff_exists_mem_beq]
  constructor
  · rintro ⟨y, hy, hxy⟩
    have hxyeq : x = y := beq_iff_eq.mp hxy
    subst hxyeq
    exact hy
  · intro h
    exact ⟨x, h, beq_iff_eq.mpr rfl⟩

theorem mem_uniqueAux (a : String) : ∀ (l seen : List String),
    a ∈ uniqueAux seen l ↔ a ∈ l ∧ a ∉ seen := by
  intro l
  induction l with
  | nil => intro seen; simp [uniqueAux]
  | cons x xs ih =>
      intro seen
      unfold uniqueAux
      by_cases hc : seen.contains x = true
      · have hx : x ∈ seen := (contains_iff_mem seen x).mp hc
        simp only [hc, if_true, ih]
        constructor
        · rintro ⟨h1, h2⟩
          exact ⟨List.mem_cons_of_mem x h1, h2⟩
        · rintro ⟨h1, h2⟩
          rcases List.mem_cons.mp h1 with rfl | h1
          · exact absurd hx h2
          · exact ⟨h1, h2⟩
      · have hx : x ∉ seen := fun hmem => hc ((contains_iff_mem seen x).mpr hmem)
        simp only [hc, if_false, Bool.false_eq_true]
        constructor
        · intro h
          rcases List.mem_cons.mp h with rfl | h
          · exact ⟨List.mem_cons_self a xs, hx⟩
          · rcases (ih (x :: seen)).mp h with ⟨h1, h2⟩
            exact ⟨List.mem_cons_of_mem x h1,
              fun hs => h2 (List.mem_cons_of_mem x hs)⟩
        · rintro ⟨h1, h2⟩
          rcases List.mem_cons.mp h1 with rfl | h1
          · exact List.mem_cons_self a _
          · by_cases hax : a = x
            · subst hax
              exact List.mem_cons_self a _
            · refine List.mem_cons_of_mem x ((ih (x :: seen)).mpr ⟨h1, ?_⟩)
              intro hs
              rcases List.mem_cons.mp hs with h | h
              · exact hax h
              · exact h2 h

theorem mem_unique (a : String) (l : List String) : a ∈ unique l ↔ a ∈ l := by
  unfold unique
  rw [mem_uniqueAux]
  simp

theorem find?_uniqueAux (p : String → Bool) : ∀ (l seen : List String),
    (∀ s ∈ seen, p s = false) → (uniqueAux seen l).find? p = l.find? p := by
  intro l
  induction l with
  | nil => intro seen _; rfl
  | cons x xs ih =>
      intro seen hseen
      unfold uniqueAux
      by_cases hc : seen.contains x = true
      · have hx : x ∈ seen := (contains_iff_mem seen x).mp hc
        have hpx : p x = false := hseen x hx
        simp only [hc, if_true, List.find?_cons, hpx, cond_false]
        exact ih seen hseen
      · simp only [hc, if_false, Bool.false_eq_true, List.find?_cons]
        cases hpx : p x with
        | true => simp
        | false =>
            simp only [cond_false]
            refine ih (x :: seen) ?_
            intro s hs
            rcases List.mem_cons.mp hs with rfl | hs
            · exact hpx
            · exact hseen s hs

theorem find?_unique (p : String → Bool) (l : List String) :
    (unique l).find? p = l.find? p := by
  unfold unique
  exact find?_uniqueAux p l [] (by simp)

theorem length_uniqueAux : ∀ (l seen : List String), (uniqueAux seen l).length ≤ l.length := by
  intro l
  induction l with
  | nil => intro seen; simp [uniqueAux]
  | cons x xs ih =>
      intro seen
      unfold uniqueAux
      by_cases hc : seen.contains x = true
      · simp only [hc, if_true]
        exact Nat.le_succ_of_le (ih seen)
      · simp only [hc, if_false, Bool.false_eq_true, List.length_cons]
        exact Nat.succ_le_succ (ih (x :: seen))

theorem length_unique (l : List String) : (unique l).length ≤ l.length :=
  length_uniqueAux l []

/-! Helper lemmas about `find?` and `filter`. -/

theorem find?_filter (l : List α) (p q : α → Bool) :
    (l.filter p).find? q = l.find? (fun x => p x && q x) := by
  induction l with
  | nil => rfl
  | cons x xs ih =>
      simp only [List.filter_cons, List.find?_cons]
      cases hp : p x with
      | true =>
          simp only [if_true, List.find?_cons, Bool.true_and]
          cases hq : q x <;> simp [hq, ih]
      | false => simp [ih]

/-! Bridge lemmas connecting the embedded definitions. -/

theorem lookup_unique_names_map (names : List (Option String)) (k : String) :
    dictLookup (unique_names_map names) k =
      (names.filterMap id).find? (fun n => pyLower n == k) := by
  unfold unique_names_map
  rw [dictLookup_pyDict, List.reverse_reverse, find?_unique]
  simp

theorem lookup_filename_map_some (fol : SubEntry) (k v : String)
    (h : dictLookup (filename_map fol) k = some v) :
    ∃ f, f ∈ fol.files ∧ f.isFile = true ∧ v = f.name ∧ pyLower f.name = k := by
  unfold filename_map at h
  rw [dictLookup_pyDict] at h
  rcases Option.map_eq_some'.mp h with ⟨f, hf, hv⟩
  have hmem : f ∈ (fol.files.filter (fun f => f.isFile)).reverse :=
    List.mem_of_find?_eq_some hf
  have hpred := List.find?_some hf
  rw [List.mem_reverse, List.mem_filter] at hmem
  exact ⟨f, hmem.1, hmem.2, hv.symm, beq_iff_eq.mp hpred⟩

theorem mem_filename_map (fol : SubEntry) (p : String × String)
    (hp : p ∈ filename_map fol) :
    ∃ f, f ∈ fol.files ∧ f.isFile = true ∧ p = (pyLower f.name, f.name) := by
  unfold filename_map at hp
  rcases mem_pyDict _ _ _ _ hp with ⟨f, hf, hpe⟩
  rw [List.mem_filter] at hf
  exact ⟨f, hf.1, hf.2, hpe⟩

theorem render_df_all_some (orig_base : String) (orig_folder : SubEntry) (face_base : String)
    (rows : List CsvRow) (hrows : ∀ r ∈ rows, r.image_filename.isSome = true) :
    ∃ results,
      render_df orig_base orig_folder face_base true none rows = Except.ok results ∧
        results.length = rows.length ∧
        ∀ x ∈ results, x.2 = FaceOutcome.folderNotFound := by
  induction rows with
  | nil => exact ⟨[], rfl, rfl, by intro x hx; simp at hx⟩
  | cons r rs ih =>
      have hr : r.image_filename.isSome = true := hrows r (List.mem_cons_self r rs)
      rcases Option.isSome_iff_exists.mp hr with ⟨csv, hcsv⟩
      rcases ih (fun q hq => hrows q (List.mem_cons_of_mem r hq)) with ⟨results, hres, hlen, hall⟩
      refine ⟨render_row orig_base orig_folder face_base true none csv :: results, ?_, ?_, ?_⟩
      · have h1 : render_row_df orig_base orig_folder face_base true none r =
            Except.ok (render_row orig_base orig_folder face_base true none csv) := by
          unfold render_row_df
          rw [hcsv]
        unfold render_df at hres ⊢
        rw [List.mapM_cons, h1, hres]
        rfl
      · simp [hlen]
      · intro x hx
        rcases List.mem_cons.mp hx with rfl | hx
        · rfl
        · exact hall x hx

/-! Sample data used in concrete instances. -/

/-- A person folder `Jane/` containing the single file `a.jpg`. -/
def jane_subentry : SubEntry :=
  ⟨"Jane", true, [⟨"a.jpg", false, true⟩]⟩

/-- The row of the spec's end-to-end scenario, as a pandas Series. -/
def john_series : PdSeries :=
  ⟨["image_filename", "name", "gender"], ["IMG_001.JPG", "John Smith", "M"]⟩

/-! Claim theorems. -/

/-- C1: NameIndexer tie-break.  For every name column and key, the
canonical spelling retained in `unique_names_map` is the first name in
original (dropna'd) order whose lowercase form is that key, i.e. the
spelling whose first appearance is earliest — the reversed-unique
iteration lets the last-processed (earliest original-order) spelling
overwrite the others.  In particular, for input
`["Jane", "jane", "JANE"]` the survivor is `"Jane"`, and it is what the
selection list shows. -/
theorem claim_C1 :
    (∀ (names : List (Option String)) (k : String),
      dictLookup (unique_names_map names) k =
        (names.filterMap id).find? (fun n => pyLower n == k)) ∧
    dictLookup (unique_names_map [some "Jane", some "jane", some "JANE"]) "jane" =
      some "Jane" ∧
    person_list [some "Jane", some "jane", some "JANE"] = ["Jane"] :=
  ⟨lookup_unique_names_map, by decide, by decide⟩

/-- C2: DirectoryResolver.  Only immediate children that are directories
are considered (the resolver equals a search over the raw listing that
requires `isDir`); the result is `none` exactly when no child directory's
lowercased name equals the target's; and a returned folder is a matching
directory from the listing — the first match in listing order, which is
what `List.find?` returns. -/
theorem claim_C2 : ∀ (entries : List SubEntry) (target : String),
    person_folder_path entries target =
      entries.find? (fun e => e.isDir && (pyLower e.name == pyLower target)) ∧
    (person_folder_path entries target = none ↔
      ∀ e ∈ entries, e.isDir = true → pyLower e.name ≠ pyLower target) ∧
    (∀ e, person_folder_path entries target = some e →
      e ∈ entries ∧ e.isDir = true ∧ pyLower e.name = pyLower target) := by
  intro entries target
  have hfind : person_folder_path entries target =
      entries.find? (fun e => e.isDir && (pyLower e.name == pyLower target)) := by
    unfold person_folder_path all_subdirs
    exact find?_filter entries _ _
  refine ⟨hfind, ?_, ?_⟩
  · rw [hfind, List.find?_eq_none]
    constructor
    · intro h e he hdir heq
      have := h e he
      rw [hdir, heq] at this
      simp at this
    · intro h e he
      simp only [Bool.and_eq_true, beq_iff_eq, not_and]
      intro hdir heq
      exact h e he hdir heq
  · intro e he
    rw [hfind] at he
    have hmem := List.mem_of_find?_eq_some he
    have hpred := List.find?_some he
    simp only [Bool.and_eq_true, beq_iff_eq] at hpred
    exact ⟨hmem, hpred.1, hpred.2⟩

/-- Witness for C2 at a listing with a file and two case-colliding
directories: the resolver returns the first matching directory. -/
theorem claim_C2_witness :
    (⟨"JANE", true, []⟩ : SubEntry) ∈
        [(⟨"readme.txt", false, []⟩ : SubEntry), ⟨"JANE", true, []⟩, ⟨"jane", true, []⟩] ∧
      (⟨"JANE", true, []⟩ : SubEntry).isDir = true ∧
      pyLower (SubEntry.name ⟨"JANE", true, []⟩) = pyLower "Jane" :=
  (claim_C2 [⟨"readme.txt", false, []⟩, ⟨"JANE", true, []⟩, ⟨"jane", true, []⟩] "Jane").2.2
    ⟨"JANE", true, []⟩ (by decide)

/-- C3: RecordMatcher.  The filename map of a resolved person directory
is built from its immediate files only (every entry of the map comes
from a file child); when the lowercased csv filename is absent from the
map the record's status is `fileMissing`, which is distinct from the
`dirMissing` status produced when the person directory did not
resolve. -/
theorem claim_C3 : ∀ (base : String) (fol : SubEntry) (csv_filename : String),
    (∀ k v, (k, v) ∈ filename_map fol →
      ∃ f, f ∈ fol.files ∧ f.isFile = true ∧ k = pyLower f.name ∧ v = f.name) ∧
    (dictLookup (filename_map fol) (pyLower csv_filename) = none →
      record_status base (some fol) csv_filename = MatchResult.fileMissing) ∧
    record_status base none csv_filename = MatchResult.dirMissing ∧
    MatchResult.fileMissing ≠ MatchResult.dirMissing := by
  intro base fol csv_filename
  refine ⟨?_, ?_, rfl, by simp⟩
  · intro k v hkv
    rcases mem_filename_map fol (k, v) hkv with ⟨f, hf, hfile, hpair⟩
    rw [Prod.mk.injEq] at hpair
    exact ⟨f, hf, hfile, hpair.1, hpair.2⟩
  · intro h
    simp [record_status, h]

/-- Witness for C3: the folder `Jane/` containing only `a.jpg` yields
`fileMissing` for a record naming `missing.jpg`. -/
theorem claim_C3_witness :
    record_status "base" (some jane_subentry) "missing.jpg" = MatchResult.fileMissing :=
  (claim_C3 "base" jane_subentry "missing.jpg").2.1 (by decide)

/-- C4: per-root and per-record independence.  A row's render is the
pair of the per-root columns; the face column does not depend on the
original root's data and vice versa; a record whose original file is
found but whose face file is absent renders the original and shows the
face `fileNotFound` indicator, which is distinct from any shown image;
and rendering a list of records is element-wise (`map`), so one record
never affects another. -/
theorem claim_C4 :
    (∀ ob ofol fb fp ffol csv,
      render_row ob ofol fb fp ffol csv = (col1 ob ofol csv, col2 fb fp ffol csv)) ∧
    (∀ ob ofol ob2 ofol2 fb fp ffol csv,
      (render_row ob ofol fb fp ffol csv).2 = (render_row ob2 ofol2 fb fp ffol csv).2) ∧
    (∀ ob ofol fb fp ffol fb2 fp2 ffol2 csv,
      (render_row ob ofol fb fp ffol csv).1 = (render_row ob ofol fb2 fp2 ffol2 csv).1) ∧
    (∀ ob ofol fb ffol csv c,
      dictLookup (filename_map ofol) (pyLower csv) = some c →
      dictLookup (filename_map ffol) (pyLower csv) = none →
      render_row ob ofol fb true (some ffol) csv =
        (OrigOutcome.shown (folder_full_path ob ofol ++ "/" ++ c) c,
         FaceOutcome.fileNotFound)) ∧
    (∀ p c, FaceOutcome.fileNotFound ≠ FaceOutcome.shown p c) ∧
    (∀ ob ofol fb fp ffol rows1 rows2,
      render_rows ob ofol fb fp ffol (rows1 ++ rows2) =
        render_rows ob ofol fb fp ffol rows1 ++ render_rows ob ofol fb fp ffol rows2) := by
  refine ⟨fun _ _ _ _ _ _ => rfl, fun _ _ _ _ _ _ _ _ => rfl,
    fun _ _ _ _ _ _ _ _ _ => rfl, ?_, by simp, ?_⟩
  · intro ob ofol fb ffol csv c h1 h2
    unfold render_row
    simp [col1, col2, h1, h2]
  · intro ob ofol fb fp ffol rows1 rows2
    simp [render_rows]

/-- Witness for C4: original folder `Jane/` holds `a.jpg`, the face
folder exists but is empty, so the row renders the original image and
the face `fileNotFound` indicator. -/
theorem claim_C4_witness :
    render_row "orig" jane_subentry "faces" true (some ⟨"Jane", true, []⟩) "A.JPG" =
      (OrigOutcome.shown (folder_full_path "orig" jane_subentry ++ "/" ++ "a.jpg") "a.jpg",
       FaceOutcome.fileNotFound) :=
  claim_C4.2.2.2.1 "orig" jane_subentry "faces" ⟨"Jane", true, []⟩ "A.JPG" "a.jpg"
    (by decide) (by decide)

/-- C5 counterexample: the claim says empty and null names are dropped,
so that the key set holds only lowercased non-empty names.  The code
drops only nulls (`dropna`): on input `[""]` the spec-side key set is
empty, yet `unique_names_map` has one entry, keyed `""`. -/
theorem claim_C5_counterexample :
    (unique_names_map [some ""]).length = 1 ∧
    ((([some ""] : List (Option String)).filterMap id).filter
        (fun n => !(n == ""))).map pyLower = [] ∧
    dictLookup (unique_names_map [some ""]) "" = some "" := by
  decide

/-- C5 (amended): null names are dropped before indexing, and the output
map's key set is exactly the set of distinct lowercased forms of the
non-null input names (empty strings included); the number of entries is
at most the number of distinct non-null input names. -/
theorem claim_C5 : ∀ (names : List (Option String)),
    (∀ k, (dictLookup (unique_names_map names) k).isSome = true ↔
      k ∈ (names.filterMap id).map pyLower) ∧
    (unique_names_map names).length ≤ (unique (names.filterMap id)).length := by
  intro names
  constructor
  · intro k
    rw [lookup_unique_names_map, List.find?_isSome]
    simp only [List.mem_map, beq_iff_eq]
  · unfold unique_names_map
    calc (pyDict ((unique (names.filterMap id)).reverse) (fun name => pyLower name)
          (fun name => name)).length
        ≤ (unique (names.filterMap id)).reverse.length := length_pyDict _ _ _
      _ = (unique (names.filterMap id)).length := List.length_reverse _

/-- Witness for C5 at a concrete name column. -/
theorem claim_C5_witness :
    (dictLookup (unique_names_map [some "Jane"]) "jane").isSome = true :=
  ((claim_C5 [some "Jane"]).1 "jane").mpr (by decide)

/-- C6 (evaluating the code at the failing input): a row whose
`image_filename` cell is missing but whose name matches is NOT excluded
from `person_df`, and processing it reaches `.lower()` on the `NaN`
filename, raising `AttributeError` — while a row with a missing name is
excluded, as the claim expects. -/
theorem claim_C6 :
    person_df [⟨some "Jane", none⟩] "Jane" = [⟨some "Jane", none⟩] ∧
    render_row_df "orig" jane_subentry "" false none ⟨some "Jane", none⟩ =
      Except.error "AttributeError" ∧
    person_df [⟨none, some "a.jpg"⟩] "Jane" = [] :=
  ⟨by decide, rfl, by decide⟩

/-- C7 counterexample: the rendered attribute table of the scenario row
contains the identifying pair `("name", "John Smith")`, which the
claim's non-identifying table excludes, so the two differ. -/
theorem claim_C7_counterexample :
    ("name", "John Smith") ∈ attributes_table john_series ∧
    ("name", "John Smith") ∉ attributes_table_spec john_series ∧
    attributes_table john_series ≠ attributes_table_spec john_series := by
  decide

/-- C7 (amended): the rendered two-column table is derived from ALL of
the record's fields in column order, identity columns included — every
non-identifying pair appears in it, but `image_filename` and `name`
rows appear as well, as the scenario row shows. -/
theorem claim_C7 : ∀ (row : PdSeries),
    attributes_table row = row.idx.zip row.vals ∧
    (∀ p ∈ attributes_table_spec row, p ∈ attributes_table row) ∧
    attributes_table john_series =
      [("image_filename", "IMG_001.JPG"), ("name", "John Smith"), ("gender", "M")] := by
  intro row
  refine ⟨rfl, ?_, by decide⟩
  intro p hp
  unfold attributes_table_spec at hp
  exact List.mem_filter.mp hp |>.1

/-- Witness for C7: a non-identifying pair of the scenario row appears
in its rendered table. -/
theorem claim_C7_witness : ("gender", "M") ∈ attributes_table john_series :=
  (claim_C7 john_series).2.1 ("gender", "M") (by decide)

/-- C9: determinism of the pipeline.  The name indexing, both directory
resolutions and the full view are pure functions of the render pass's
inputs, so two runs on the same snapshot give identical results. -/
theorem claim_C9 : ∀ (i : AppInput),
    (match_pipeline_twice i).1 = (match_pipeline_twice i).2 :=
  fun _ => rfl

/-- C10: a Found outcome uses the on-disk casing.  Whenever a column
renders an image, the caption is the actual name of a file in the
resolved folder's immediate listing (the filename map's value), the
shown path is the folder path joined with that on-disk name, and the
file's lowercased name matches the CSV's lowercased filename. -/
theorem claim_C10 : ∀ (base : String) (fol : SubEntry) (csv p cap : String),
    (col1 base fol csv = OrigOutcome.shown p cap →
      ∃ f, f ∈ fol.files ∧ f.isFile = true ∧ cap = f.name ∧
        pyLower f.name = pyLower csv ∧
        p = folder_full_path base fol ++ "/" ++ f.name) ∧
    (∀ fp, col2 base fp (some fol) csv = FaceOutcome.shown p cap →
      ∃ f, f ∈ fol.files ∧ f.isFile = true ∧ cap = f.name ∧
        pyLower f.name = pyLower csv ∧
        p = folder_full_path base fol ++ "/" ++ f.name) := by
  intro base fol csv p cap
  constructor
  · intro h
    unfold col1 at h
    cases hl : dictLookup (filename_map fol) (pyLower csv) with
    | none => rw [hl] at h; exact absurd h (by simp)
    | some c =>
        rw [hl] at h
        simp only [OrigOutcome.shown.injEq] at h
        rcases lookup_filename_map_some fol (pyLower csv) c hl with ⟨f, hf, hfile, hcv, hlow⟩
        exact ⟨f, hf, hfile, h.2.symm.trans hcv, hlow, by rw [← h.1, hcv]⟩
  · intro fp h
    simp only [col2] at h
    cases hl : dictLookup (filename_map fol) (pyLower csv) with
    | none => rw [hl] at h; exact absurd h (by simp)
    | some c =>
        rw [hl] at h
        simp only [FaceOutcome.shown.injEq] at h
        rcases lookup_filename_map_some fol (pyLower csv) c hl with ⟨f, hf, hfile, hcv, hlow⟩
        exact ⟨f, hf, hfile, h.2.symm.trans hcv, hlow, by rw [← h.1, hcv]⟩

/-- Witness for C10: the CSV spelling `A.JPG` matches the on-disk file
`a.jpg` in `Jane/`, and the rendered path and caption use the on-disk
spelling. -/
theorem claim_C10_witness :
    ∃ f, f ∈ jane_subentry.files ∧ f.isFile = true ∧ "a.jpg" = f.name ∧
      pyLower f.name = pyLower "A.JPG" ∧
      "orig/Jane/a.jpg" = folder_full_path "orig" jane_subentry ++ "/" ++ f.name :=
  (claim_C10 "orig" jane_subentry "A.JPG" "orig/Jane/a.jpg" "a.jpg").1 (by decide)

/-- Render-pass input whose face base path is provided but is not a
directory, while the face listing would contain a matching `Jane/`. -/
def app_input_bad_face : AppInput :=
  ⟨true, "orig", "faces", true, [jane_subentry], false, [jane_subentry], true, true,
   [⟨some "Jane", some "a.jpg"⟩], "Jane"⟩

/-- Same pass with a valid face base directory that simply has no
matching subfolder. -/
def app_input_missing_face_folder : AppInput :=
  ⟨true, "orig", "faces", true, [jane_subentry], true, [], true, true,
   [⟨some "Jane", some "a.jpg"⟩], "Jane"⟩

/-- Render-pass input whose original base path is not a directory. -/
def app_input_bad_orig : AppInput :=
  ⟨true, "orig", "", false, [], false, [], true, true, [], "Jane"⟩

/-- C8 counterexample: for the FACE root an invalid base directory is
not reported as a distinct configuration error — the view renders and
each record shows the person-level "folder not found in face directory"
warning, indistinguishable from the case of a valid face base directory
that merely lacks the person's subfolder. -/
theorem claim_C8_counterexample :
    app app_input_bad_face =
      View.page [(OrigOutcome.shown "orig/Jane/a.jpg" "a.jpg", FaceOutcome.folderNotFound)] ∧
    app app_input_bad_face = app app_input_missing_face_folder := by
  decide

/-- C8 (amended): only for the ORIGINAL root is an invalid base
directory a distinct configuration error surfaced before any
subdirectory resolution; for the optional face root an invalid base
directory is not distinctly reported: resolution is skipped (the face
folder is `none` no matter what the listing holds), every record's face
cell degrades to the person-level `folderNotFound` warning, and the rest
of the view still renders. -/
theorem claim_C8 : ∀ (i : AppInput),
    (i.csv_uploaded = true → i.image_base_dir_path ≠ "" → i.orig_is_dir = false →
      app i = View.origDirConfigError i.image_base_dir_path) ∧
    (∀ path entries person, face_person_folder_path path false entries person = none) ∧
    (∀ fb csv, col2 fb true none csv = FaceOutcome.folderNotFound) ∧
    (∀ fol, i.csv_uploaded = true → i.image_base_dir_path ≠ "" → i.orig_is_dir = true →
      i.csv_load_ok = true → i.has_required_columns = true →
      i.face_image_base_dir_path ≠ "" → i.face_is_dir = false →
      person_df i.df i.selected_person ≠ [] →
      person_folder_path i.orig_entries i.selected_person = some fol →
      (∀ r ∈ person_df i.df i.selected_person, r.image_filename.isSome = true) →
      ∃ results, app i = View.page results ∧ results ≠ [] ∧
        ∀ x ∈ results, x.2 = FaceOutcome.folderNotFound) := by
  intro i
  refine ⟨?_, ?_, ?_, ?_⟩
  · intro hup hpath hdir
    unfold app
    have h1 : (!i.csv_uploaded || i.image_base_dir_path == "") = false := by
      rw [hup, beq_eq_false_iff_ne.mpr hpath]
      rfl
    rw [h1]
    simp [hdir]
  · intro path entries person
    unfold face_person_folder_path
    simp
  · intro fb csv
    rfl
  · intro fol hup hpath hdir hload hcols hfpath hfdir hpdf hfol hall
    have hfe : face_person_folder_path i.face_image_base_dir_path i.face_is_dir
        i.face_entries i.selected_person = none := by
      unfold face_person_folder_path
      rw [hfdir]
      simp
    have hprov : (i.face_image_base_dir_path != "") = true := by
      simp [bne, beq_eq_false_iff_ne.mpr hfpath]
    rcases render_df_all_some i.image_base_dir_path fol i.face_image_base_dir_path
        (person_df i.df i.selected_person) hall with ⟨results, hres, hlen, hfolder⟩
    refine ⟨results, ?_, ?_, hfolder⟩
    · unfold app
      have h1 : (!i.csv_uploaded || i.image_base_dir_path == "") = false := by
        rw [hup, beq_eq_false_iff_ne.mpr hpath]
        rfl
      rw [h1]
      simp only [Bool.false_eq_true, if_false]
      rw [hdir, hload, hcols]
      simp only [Bool.not_true, Bool.false_eq_true, if_false]
      have hempty : (person_df i.df i.selected_person).isEmpty = false := by
        cases hcase : person_df i.df i.selected_person with
        | nil => exact absurd hcase hpdf
        | cons a l => rfl
      rw [hempty, hfol, hprov, hfe]
      simp only [Bool.false_eq_true, if_false]
      rw [hres]
    · intro hnil
      rw [hnil] at hlen
      exact hpdf (List.length_eq_zero.mp hlen.symm)

/-- Witness for C8: the invalid original base is a configuration error,
and the pass with the invalid face base still renders its page with the
person-level face warning. -/
theorem claim_C8_witness :
    app app_input_bad_orig = View.origDirConfigError "orig" ∧
    ∃ results, app app_input_bad_face = View.page results ∧ results ≠ [] ∧
      ∀ x ∈ results, x.2 = FaceOutcome.folderNotFound :=
  ⟨(claim_C8 app_input_bad_orig).1 rfl (by decide) rfl,
   (claim_C8 app_input_bad_face).2.2.2 jane_subentry rfl (by decide) rfl rfl rfl
     (by decide) rfl (by decide) (by decide) (by decide)⟩
